import Mathlib

/-!
Shallow embedding of `get_weather.py` (StormGlass windsurf forecast fetcher).

Python dicts are modelled as insertion-ordered association lists with unique
keys (`List (String × _)`), matching CPython's ordered-dict semantics.
Numeric values (Python `int`/`float`) are modelled as exact rationals `ℚ`;
every numeric operation the program performs on them (a single multiplication
by a literal constant) is the same operation on both sides of every claimed
identity, so exact rationals are a faithful stand-in for IEEE doubles here.
Fallible code paths (Python exceptions) are modelled with `Option`/`Except`.
-/

namespace StormGlass

/-- A value stored in an hourly record: the `time` string, a bare number, or a
still-nested per-source container `{source_id: number}` as received from the
API (`SourceData` in the source). -/
inductive Value where
  | str (s : String)
  | num (q : ℚ)
  | dict (entries : List (String × ℚ))
deriving DecidableEq, Repr

/-- An hourly record (`RawHourlyData` / its transformed form): a Python dict
modelled as an insertion-ordered association list. -/
abbrev HourRecord := List (String × Value)

/-- Python dict lookup `d[k]` / `k in d`: first (unique) matching key. -/
def lookupKey {κ α : Type} [DecidableEq κ] (k : κ) : List (κ × α) → Option α
  | [] => none
  | (k', v) :: rest => if k = k' then some v else lookupKey k rest

/-- Python `k in d`. -/
def hasKey {κ α : Type} [DecidableEq κ] (k : κ) (r : List (κ × α)) : Bool :=
  (lookupKey k r).isSome

/-- Python dict-literal update `{**r, k: v}`: replaces the value in place when
the key exists (insertion order kept), otherwise appends the new key at the
end, exactly as CPython does. -/
def setKey {κ α : Type} [DecidableEq κ] (k : κ) (v : α) (r : List (κ × α)) :
    List (κ × α) :=
  if hasKey k r then r.map (fun kv => (kv.1, if kv.1 = k then v else kv.2))
  else r ++ [(k, v)]

/-- Per-value body of `_flatten_hour`'s dict comprehension:
`value['sg'] if isinstance(value, dict) and 'sg' in value else value`. -/
def flattenValue (v : Value) : Value :=
  match v with
  | Value.dict d =>
    match lookupKey "sg" d with
    | some x => Value.num x
    | none => Value.dict d
  | v => v

/-- Source `_flatten_hour`: flatten the nested source container for each field
of a single hour; keys and their order are unchanged. -/
def flattenHour (hour : HourRecord) : HourRecord :=
  hour.map fun kv => (kv.1, flattenValue kv.2)

/-- Source constant `MS_TO_KNOTS = 1.94384` (exact decimal literal). -/
def MS_TO_KNOTS : ℚ := 1.94384

/-- Source tuple `wind_speed_keys = ('windSpeed', 'gust')`. -/
def wind_speed_keys : List String := ["windSpeed", "gust"]

/-- Per-entry body of `_convert_hour_speeds`'s dict comprehension:
`(value * MS_TO_KNOTS if isinstance(value, (int, float)) else value)
 if key in wind_speed_keys else value`. -/
def convertValue (k : String) (v : Value) : Value :=
  if k ∈ wind_speed_keys then
    match v with
    | Value.num q => Value.num (q * MS_TO_KNOTS)
    | v => v
  else v

/-- Source `_convert_hour_speeds`: convert `windSpeed` and `gust` from m/s to
knots for a single hour; keys and their order are unchanged. -/
def convertHourSpeeds (hour : HourRecord) : HourRecord :=
  hour.map fun kv => (kv.1, convertValue kv.1 kv.2)

/-- Decimal digit of an ASCII character, if it is one. -/
def digitVal (c : Char) : Option Nat :=
  if c.isDigit then some (c.toNat - 48) else none

/-- Days since 1970-01-01 of a civil date (Gregorian; valid for years
at least 1970, which the parser guarantees). Standard era-based algorithm. -/
def daysFromCivil (y m d : Nat) : Nat :=
  let yAdj := if m ≤ 2 then y - 1 else y
  let era := yAdj / 400
  let yoe := yAdj % 400
  let mp := if 2 < m then m - 3 else m + 9
  let doy := (153 * mp + 2) / 5 + (d - 1)
  let doe := yoe * 365 + yoe / 4 - yoe / 100 + doy
  era * 146097 + doe - 719468

/-- Civil date (year, month, day) of a day count since 1970-01-01. -/
def civilFromDays (days : Nat) : Nat × Nat × Nat :=
  let z := days + 719468
  let era := z / 146097
  let doe := z % 146097
  let yoe := (doe - doe / 1460 + doe / 36524 - doe / 146096) / 365
  let y := yoe + era * 400
  let doy := doe - (365 * yoe + yoe / 4 - yoe / 100)
  let mp := (5 * doy + 2) / 153
  let d := doy - (153 * mp + 2) / 5 + 1
  let m := if mp < 10 then mp + 3 else mp - 9
  (if m ≤ 2 then y + 1 else y, m, d)

/-- Reads two decimal digits as a number, returning the remaining characters. -/
def parse2digits (cs : List Char) : Option (Nat × List Char) :=
  match cs with
  | c1 :: c2 :: rest => do
    let a ← digitVal c1
    let b ← digitVal c2
    some (a * 10 + b, rest)
  | _ => none

/-- Reads four decimal digits as a number, returning the remaining characters. -/
def parse4digits (cs : List Char) : Option (Nat × List Char) := do
  let (hi, cs) ← parse2digits cs
  let (lo, cs) ← parse2digits cs
  some (hi * 100 + lo, cs)

/-- Consumes one expected punctuation character. -/
def expectChar (c : Char) (cs : List Char) : Option (List Char) :=
  match cs with
  | c' :: rest => if c' = c then some rest else none
  | _ => none

/-- Accepts the offset tails the provider uses for UTC instants: no offset
(assumed UTC per provider convention), `Z`, or `+00:00`. -/
def tailOkISO (cs : List Char) : Bool :=
  cs == [] || cs == ['Z'] || cs == ['+', '0', '0', ':', '0', '0']

/-- Epoch seconds of a validated civil UTC date-time. -/
def epochOfCivil (y mo d hh mi ss : Nat) : Option Nat :=
  if 1970 ≤ y ∧ 1 ≤ mo ∧ mo ≤ 12 ∧ 1 ≤ d ∧ d ≤ 31 ∧ hh ≤ 23 ∧ mi ≤ 59 ∧ ss ≤ 59 then
    some (daysFromCivil y mo d * 86400 + hh * 3600 + mi * 60 + ss)
  else none

/-- Reads the `YYYY-MM-DD` date part. -/
def parseDate (cs : List Char) : Option (Nat × Nat × Nat × List Char) := do
  let (y, cs) ← parse4digits cs
  let cs ← expectChar '-' cs
  let (mo, cs) ← parse2digits cs
  let cs ← expectChar '-' cs
  let (d, cs) ← parse2digits cs
  some (y, mo, d, cs)

/-- Reads the `THH:MM:SS` clock part. -/
def parseClock (cs : List Char) : Option (Nat × Nat × Nat × List Char) := do
  let cs ← expectChar 'T' cs
  let (hh, cs) ← parse2digits cs
  let cs ← expectChar ':' cs
  let (mi, cs) ← parse2digits cs
  let cs ← expectChar ':' cs
  let (ss, cs) ← parse2digits cs
  some (hh, mi, ss, cs)

/-- Models `arrow.get` on the provider's ISO-8601 UTC timestamps
(`YYYY-MM-DDTHH:MM:SS` with no offset — assumed UTC — or with a `Z` or
`+00:00` suffix), returning seconds since the Unix epoch. Timestamps arrow
would reject parse to `none` (arrow raises). -/
def parseISO (s : String) : Option Nat := do
  let (y, mo, d, cs) ← parseDate s.toList
  let (hh, mi, ss, cs) ← parseClock cs
  if tailOkISO cs then epochOfCivil y mo d hh mi ss else none

/-- Zero-padded two-digit rendering (arrow format tokens `MM`, `DD`, `HH`, `mm`). -/
def pad2 (n : Nat) : String := if n < 10 then "0" ++ toString n else toString n

/-- Zero-padded four-digit rendering (arrow format token `YYYY`). -/
def pad4 (n : Nat) : String :=
  if n < 10 then "000" ++ toString n
  else if n < 100 then "00" ++ toString n
  else if n < 1000 then "0" ++ toString n
  else toString n

/-- Arrow's `format('YYYY-MM-DD HH:mm')` applied to a wall-clock instant given
as seconds since the epoch of that wall clock. -/
def formatYMDHM (wallSeconds : Nat) : String :=
  let days := wallSeconds / 86400
  let secs := wallSeconds % 86400
  let c := civilFromDays days
  pad4 c.1 ++ "-" ++ pad2 c.2.1 ++ "-" ++ pad2 c.2.2 ++ " " ++
    pad2 (secs / 3600) ++ ":" ++ pad2 (secs % 3600 / 60)

/-- A time zone, as its offset east of UTC in seconds at a given UTC instant. -/
def Zone : Type := Nat → Nat

/-- Models the IANA zone `Asia/Jerusalem` used by arrow's `.to('Asia/Jerusalem')`:
UTC+2 standard time, UTC+3 daylight time between the 2024 transitions
(2024-03-29 02:00 standard = epoch 1711670400, and 2024-10-27 02:00 daylight
= epoch 1729983600). Faithful for the 2024 instants evaluated here. -/
def asiaJerusalem : Zone := fun t =>
  if 1711670400 ≤ t ∧ t < 1729983600 then 10800 else 7200

/-- Arrow's `.to(zone).format('YYYY-MM-DD HH:mm')`: shift the UTC instant by
the zone's offset and render the resulting wall clock. -/
def localFormat (epoch : Nat) (zone : Zone) : String :=
  formatYMDHM (epoch + zone epoch)

/-- Source `_convert_hour_time`: `{**hour, 'time': arrow.get(hour['time'])
.to(timezone).format('YYYY-MM-DD HH:mm')}`. `none` models the exception paths
(missing `time` key, non-string or unparseable timestamp). -/
def convertHourTime (hour : HourRecord) (zone : Zone) : Option HourRecord :=
  match lookupKey "time" hour with
  | some (Value.str t) =>
    match parseISO t with
    | some epoch => some (setKey "time" (Value.str (localFormat epoch zone)) hour)
    | none => none
  | _ => none

/-- Source `_transform_hour`: flatten, then convert speeds, then convert time,
in that fixed order. -/
def transformHour (hour : HourRecord) (zone : Zone) : Option HourRecord :=
  convertHourTime (convertHourSpeeds (flattenHour hour)) zone

/-- Source `_process_hours`: the list comprehension
`[_transform_hour(hour, timezone) for hour in hours]`; an exception in any
element aborts the whole comprehension (`none`). -/
def processHours (hours : List HourRecord) (zone : Zone) :
    Option (List HourRecord) :=
  match hours with
  | [] => some []
  | h :: rest =>
    match transformHour h zone, processHours rest zone with
    | some h', some rest' => some (h' :: rest')
    | _, _ => none

/-- A value stored in the response meta dict (`RawMetaData` fields are numbers,
strings, a list of parameter names, and — after enrichment — a string-to-string
units dict). -/
inductive MetaValue where
  | str (s : String)
  | num (q : ℚ)
  | strList (l : List String)
  | strDict (d : List (String × String))
deriving DecidableEq, Repr

/-- The `'units'` dict literal written by `_update_meta`, transcribed
byte-for-byte from the source (the two direction strings contain the source
file's literal U+C9F8 character where a degree sign would be expected). -/
def unitsDescriptions : List (String × String) := [
  ("windSpeed", "Speed of wind at 10m above ground in knots"),
  ("gust", "Wind gust in knots"),
  ("airTemperature", "Air temperature in degrees celsius"),
  ("swellHeight", "Height of swell waves in meters"),
  ("swellPeriod", "Period of swell waves in seconds"),
  ("swellDirection", "Direction of swell waves. 0째 indicates swell coming from north"),
  ("waterTemperature", "Water temperature in degrees celsius"),
  ("windDirection", "Direction of wind at 10m above ground. 0째 indicates wind coming from north")]

/-- Source `_update_meta`: `{**meta, 'report_generated_at':
arrow.now().to('Asia/Jerusalem').format('YYYY-MM-DD HH:mm'), 'units': {...}}`.
The ambient clock `arrow.now()` is passed explicitly as a UTC epoch second.
The dict literal builds a fresh dict; the input is not mutated. -/
def updateMeta (meta : List (String × MetaValue)) (now : Nat) :
    List (String × MetaValue) :=
  setKey "units" (MetaValue.strDict unitsDescriptions)
    (setKey "report_generated_at"
      (MetaValue.str (localFormat now asiaJerusalem)) meta)

/-- A decoded JSON value, the result type of `response.json()`. -/
inductive Json where
  | null
  | bool (b : Bool)
  | num (q : ℚ)
  | str (s : String)
  | arr (elems : List Json)
  | obj (fields : List (String × Json))

/-- The HTTP response object `_fetch_weather_data` inspects: its status code,
its raw body text, and the result of `response.json()` (`none` when the body
is not valid JSON, in which case `response.json()` raises). -/
structure HttpResponse where
  status_code : Nat
  text : String
  jsonBody : Option Json

/-- Source `STORMGLASS_ERROR_MESSAGES`: the fixed status-code-to-message table. -/
def STORMGLASS_ERROR_MESSAGES : List (Nat × String) := [
  (402, "Payment Required: You\x27ve exceeded the daily request limit for your subscription.\nPlease consider upgrading if this happens frequently, or try again tomorrow."),
  (403, "Forbidden: Your API key was not provided or is malformed.\nPlease check that STORMGLASS_API_KEY in your .env file is correct."),
  (404, "Not Found: The requested API resource does not exist.\nPlease verify the API endpoint and review the API documentation."),
  (405, "Method Not Allowed: The API resource was requested using an unsupported method.\nPlease review the API documentation for correct usage."),
  (410, "Gone: You\x27ve requested a legacy API resource that is no longer available.\nPlease update your code to use the current API version."),
  (422, "Unprocessable Content: Invalid request parameters.\nPlease verify your coordinates, date range, and other parameters are correct."),
  (503, "Service Unavailable: Storm Glass is experiencing technical difficulties.\nPlease try again later.")]

/-- The claim's known-error status set {402, 403, 404, 405, 410, 422, 503}. -/
def knownErrorStatuses : List Nat := [402, 403, 404, 405, 410, 422, 503]

/-- The f-string message built for a non-200 status outside the table. -/
def genericErrorMessage (status : Nat) (text : String) : String :=
  "Unexpected API error (HTTP " ++ toString status ++ ").\nResponse: " ++
    text ++ "\nPlease check the API documentation or try again later."

/-- How `_fetch_weather_data` fails after receiving a response:
`api` models raising `StormGlassAPIError(status_code, message)` and
`jsonDecode` models the exception `response.json()` raises on a body that is
not valid JSON. -/
inductive FetchError where
  | api (status_code : Nat) (user_friendly_message : String)
  | jsonDecode

/-- Response handling of `_fetch_weather_data` (everything after the GET):
the table check, the non-200 check, then `return response.json()` with no
inspection of the decoded body. -/
def fetchWeatherData (r : HttpResponse) : Except FetchError Json :=
  match lookupKey r.status_code STORMGLASS_ERROR_MESSAGES with
  | some msg => Except.error (FetchError.api r.status_code msg)
  | none =>
    if r.status_code ≠ 200 then
      Except.error (FetchError.api r.status_code
        (genericErrorMessage r.status_code r.text))
    else
      match r.jsonBody with
      | some j => Except.ok j
      | none => Except.error FetchError.jsonDecode

/-- An `arrow.Arrow` instant: microseconds since the Unix epoch (arrow wraps
`datetime`, whose precision is the microsecond). The zone it is displayed in
is irrelevant to the instant itself. -/
structure ArrowTime where
  epochMicros : ℤ
deriving DecidableEq, Repr

/-- Arrow's `.to('UTC')`: changes only the display zone, not the instant. -/
def ArrowTime.toUTC (a : ArrowTime) : ArrowTime := a

/-- Arrow's `.timestamp()`: seconds since the Unix epoch as a Python float
(possibly fractional; modelled as an exact rational). -/
def ArrowTime.timestamp (a : ArrowTime) : ℚ := (a.epochMicros : ℚ) / 1000000

/-- A query-parameter value as handed to `requests.get`. -/
inductive ParamValue where
  | num (q : ℚ)
  | str (s : String)
deriving DecidableEq, Repr

/-- Source local `params`: the fixed list of eight requested parameter names. -/
def weatherParams : List String := [
  "airTemperature", "gust", "swellDirection", "swellHeight",
  "swellPeriod", "waterTemperature", "windDirection", "windSpeed"]

/-- Source `stormglass_endpoint`. -/
def stormglass_endpoint : String := "https://api.stormglass.io/v2/weather/point"

/-- The `params=` dict passed to `requests.get` in `_fetch_weather_data`, in
source order: lat, lng, the comma-joined parameter list, `start` and `end` as
`start.to('UTC').timestamp()` / `end.to('UTC').timestamp()`, and `source='sg'`. -/
def requestParams (start end_ : ArrowTime) (lat lng : ℚ) :
    List (String × ParamValue) := [
  ("lat", ParamValue.num lat),
  ("lng", ParamValue.num lng),
  ("params", ParamValue.str (String.intercalate "," weatherParams)),
  ("start", ParamValue.num start.toUTC.timestamp),
  ("end", ParamValue.num end_.toUTC.timestamp),
  ("source", ParamValue.str "sg")]

/-- The `headers=` dict passed to `requests.get`: the raw key under
`Authorization`, with no bearer prefix. -/
def requestHeaders (api_key : String) : List (String × String) :=
  [("Authorization", api_key)]

/-- Two-record input used to exercise the hour pipeline on concrete data. -/
def sampleHours : List HourRecord := [
  [("time", Value.str "2024-06-01T00:00:00+00:00"), ("windSpeed", Value.dict [("sg", 5)])],
  [("time", Value.str "2024-06-01T01:00:00+00:00"), ("gust", Value.dict [("sg", 4)])]]

/-- Expected transform of `sampleHours` (Jerusalem is UTC+3 in June 2024). -/
def sampleHoursOut : List HourRecord := [
  [("time", Value.str "2024-06-01 03:00"), ("windSpeed", Value.num (5 * MS_TO_KNOTS))],
  [("time", Value.str "2024-06-01 04:00"), ("gust", Value.num (4 * MS_TO_KNOTS))]]

/-- A raw hour record with a `windSpeed` source container holding 5.0 m/s. -/
def c4hour : HourRecord :=
  [("time", Value.str "2024-06-01T00:00:00+00:00"), ("windSpeed", Value.dict [("sg", 5)])]

/-- The transform of `c4hour`. -/
def c4out : HourRecord :=
  [("time", Value.str "2024-06-01 03:00"), ("windSpeed", Value.num (5 * MS_TO_KNOTS))]

/-- A record carrying the spec's example timestamp plus one scalar field. -/
def c5hour : HourRecord :=
  [("time", Value.str "2024-06-01T00:00:00+00:00"), ("airTemperature", Value.num 20)]

/-- A small raw meta dict of the provider's bookkeeping shape. -/
def c9meta : List (String × MetaValue) :=
  [("cost", MetaValue.num 1), ("lat", MetaValue.num 32.486722),
   ("params", MetaValue.strList weatherParams)]

/-- Looking a key up in an association list after a key-preserving per-entry
map rewrites the looked-up value pointwise. -/
theorem lookupKey_flattenHour (hour : HourRecord) (k : String) :
    lookupKey k (flattenHour hour) = (lookupKey k hour).map flattenValue := by
  induction hour with
  | nil => rfl
  | cons kv rest ih =>
    obtain ⟨k', v⟩ := kv
    show lookupKey k ((k', flattenValue v) :: flattenHour rest) = _
    by_cases h : k = k' <;> simp [lookupKey, h, ih]

/-- Lookup through `convertHourSpeeds` rewrites the value by `convertValue`. -/
theorem lookupKey_convertHourSpeeds (hour : HourRecord) (k : String) :
    lookupKey k (convertHourSpeeds hour) = (lookupKey k hour).map (convertValue k) := by
  induction hour with
  | nil => rfl
  | cons kv rest ih =>
    obtain ⟨k', v⟩ := kv
    show lookupKey k ((k', convertValue k' v) :: convertHourSpeeds rest) = _
    by_cases h : k = k'
    · subst h; simp [lookupKey]
    · simp [lookupKey, h, ih]

/-- Lookup distributes over append, preferring the left list. -/
theorem lookupKey_append {κ α : Type} [DecidableEq κ] (k : κ)
    (l₁ l₂ : List (κ × α)) :
    lookupKey k (l₁ ++ l₂) = (lookupKey k l₁).or (lookupKey k l₂) := by
  induction l₁ with
  | nil => simp [lookupKey]
  | cons kv rest ih =>
    obtain ⟨k', v⟩ := kv
    by_cases h : k = k' <;> simp [lookupKey, h, ih]

/-- Replacing the value at one key leaves lookups at other keys unchanged. -/
theorem lookupKey_replace_ne {κ α : Type} [DecidableEq κ] {k' k : κ} (v : α)
    (r : List (κ × α)) (h : k' ≠ k) :
    lookupKey k' (r.map fun kv => (kv.1, if kv.1 = k then v else kv.2)) =
      lookupKey k' r := by
  induction r with
  | nil => rfl
  | cons kv rest ih =>
    obtain ⟨a, w⟩ := kv
    by_cases hk : k' = a
    · have hak : ¬ a = k := fun hh => h (hk.trans hh)
      simp [lookupKey, hk, hak]
    · simp [lookupKey, hk, ih]

/-- Replacing the value at a present key makes lookups there see the new value. -/
theorem lookupKey_replace_self {κ α : Type} [DecidableEq κ] {k : κ} (v : α)
    (r : List (κ × α)) (h : (lookupKey k r).isSome) :
    lookupKey k (r.map fun kv => (kv.1, if kv.1 = k then v else kv.2)) = some v := by
  induction r with
  | nil => simp [lookupKey] at h
  | cons kv rest ih =>
    obtain ⟨a, w⟩ := kv
    by_cases ha : k = a
    · subst ha; simp [lookupKey]
    · have hak : ¬ a = k := fun hh => ha hh.symm
      simp only [lookupKey, ha, if_false] at h
      simp [lookupKey, ha, hak, ih h]

/-- Lookup at the written key after `setKey` yields the written value. -/
theorem lookupKey_setKey_self {κ α : Type} [DecidableEq κ] (k : κ) (v : α)
    (r : List (κ × α)) : lookupKey k (setKey k v r) = some v := by
  unfold setKey
  by_cases hk : hasKey k r
  · simp only [hk, if_true]
    exact lookupKey_replace_self v r hk
  · simp only [hk, if_false]
    have hnone : lookupKey k r = none := by
      simpa [hasKey, Option.not_isSome_iff_eq_none] using hk
    simp [lookupKey_append, hnone, lookupKey]

/-- Lookup at any other key is untouched by `setKey`. -/
theorem lookupKey_setKey_ne {κ α : Type} [DecidableEq κ] {k' k : κ} (v : α)
    (r : List (κ × α)) (h : k' ≠ k) :
    lookupKey k' (setKey k v r) = lookupKey k' r := by
  unfold setKey
  by_cases hk : hasKey k r
  · simp only [hk, if_true]
    exact lookupKey_replace_ne v r h
  · simp only [hk, if_false]
    simp [lookupKey_append, lookupKey, h]

/-- Length and pointwise behaviour of `processHours`, by induction over the
hour list. -/
theorem processHours_spec (hours : List HourRecord) (zone : Zone)
    (out : List HourRecord) (h : processHours hours zone = some out) :
    out.length = hours.length ∧
    ∀ i : Nat, (hours[i]?.bind fun hr => transformHour hr zone) = out[i]? := by
  induction hours generalizing out with
  | nil =>
    simp only [processHours] at h
    cases h
    exact ⟨rfl, fun i => by simp⟩
  | cons hd tl ih =>
    simp only [processHours] at h
    cases ht : transformHour hd zone with
    | none => rw [ht] at h; exact absurd h (by simp)
    | some hd' =>
      cases hp : processHours tl zone with
      | none => rw [ht, hp] at h; exact absurd h (by simp)
      | some tl' =>
        rw [ht, hp] at h
        cases h
        obtain ⟨hlen, hidx⟩ := ih tl' hp
        refine ⟨by simp [hlen], fun i => ?_⟩
        cases i with
        | zero => simp [ht]
        | succ j => simpa using hidx j

/-- Membership in the claim's status set coincides with the message table
having an entry. -/
theorem mem_knownErrorStatuses_iff (s : Nat) :
    s ∈ knownErrorStatuses ↔
      (lookupKey s STORMGLASS_ERROR_MESSAGES).isSome := by
  constructor
  · intro h
    fin_cases h <;> rfl
  · intro h
    by_contra hmem
    simp only [knownErrorStatuses, List.mem_cons, List.mem_singleton,
      not_or] at hmem
    obtain ⟨h1, h2, h3, h4, h5, h6, h7⟩ := hmem
    simp [STORMGLASS_ERROR_MESSAGES, lookupKey, h1, h2, h3, h4, h5, h6, h7] at h

/-- A rational of the form micros over ten to the sixth is an integer exactly
when the microsecond count is divisible by ten to the sixth. -/
theorem div_million_intValued_iff (m : ℤ) :
    (∃ z : ℤ, ((m : ℚ) / 1000000) = (z : ℚ)) ↔ (1000000 : ℤ) ∣ m := by
  constructor
  · rintro ⟨z, hz⟩
    rw [div_eq_iff (by norm_num : (1000000 : ℚ) ≠ 0)] at hz
    have hm : m = z * 1000000 := by exact_mod_cast hz
    exact ⟨z, by omega⟩
  · rintro ⟨c, hc⟩
    refine ⟨c, ?_⟩
    subst hc
    push_cast
    exact mul_div_cancel_left₀ _ (by norm_num)

/-- C1 (amended): a field holding a source container without the configured
source key `sg` is passed through flattening unchanged — still nested, not
dropped, not nulled, and with no error raised (`_flatten_hour`'s comprehension
takes the `else value` branch and is total). -/
theorem c1_flatten_missing_source_passthrough
    (hour : HourRecord) (k : String) (d : List (String × ℚ))
    (hk : lookupKey k hour = some (Value.dict d))
    (hsg : lookupKey "sg" d = none) :
    lookupKey k (flattenHour hour) = some (Value.dict d) := by
  rw [lookupKey_flattenHour, hk]
  simp [flattenValue, hsg]

/-- C1 counterexample: flattening a record whose `windSpeed` container lacks
the `sg` key returns the record unchanged — no missing-source failure occurs,
refuting the claim that flattening fails loudly in this case. -/
theorem c1_counterexample :
    flattenHour [("windSpeed", Value.dict [("noaa", 3)])] =
      [("windSpeed", Value.dict [("noaa", 3)])] := by
  decide

/-- Concrete check of the amended C1 statement on a two-field record. -/
theorem c1_witness :
    lookupKey "gust"
      (flattenHour [("time", Value.str "t"), ("gust", Value.dict [("icon", 2)])]) =
      some (Value.dict [("icon", 2)]) :=
  c1_flatten_missing_source_passthrough _ "gust" _ rfl rfl

/-- C10: `_convert_hour_speeds` is total (defined on every input, no raise —
the multiplication is guarded by the `isinstance` check) and passes every
non-numeric value through unchanged and unconverted, including a still-nested
source container that flattening left in place. -/
theorem c10_convert_total_passthrough (hour : HourRecord) :
    (convertHourSpeeds hour).length = hour.length ∧
    (∀ k v, lookupKey k hour = some v → (∀ q, v ≠ Value.num q) →
      lookupKey k (convertHourSpeeds hour) = some v) := by
  refine ⟨List.length_map _ _, fun k v hv hnum => ?_⟩
  rw [lookupKey_convertHourSpeeds, hv]
  cases v with
  | num q => exact absurd rfl (hnum q)
  | str s => simp [convertValue]
  | dict d => simp [convertValue]

/-- Concrete check of C10: a nested container under `windSpeed` survives the
conversion step untouched. -/
theorem c10_witness :
    lookupKey "windSpeed"
      (convertHourSpeeds [("windSpeed", Value.dict [("noaa", 3)])]) =
      some (Value.dict [("noaa", 3)]) :=
  (c10_convert_total_passthrough _).2 "windSpeed" _ rfl (fun _ h => nomatch h)

/-- C4: the knots conversion is exact multiplication by the literal constant
1.94384, applied exactly to the `windSpeed` and `gust` keys; every other key
passes through the conversion step unchanged; and a record whose `windSpeed`
container holds 5.0 ends the full transform with `windSpeed` equal to
5.0 * 1.94384. -/
theorem c4_knots_conversion (hour : HourRecord) (zone : Zone) :
    (∀ k q, k ∈ wind_speed_keys → lookupKey k hour = some (Value.num q) →
      lookupKey k (convertHourSpeeds hour) =
        some (Value.num (q * (1.94384 : ℚ)))) ∧
    (∀ k v, k ∉ wind_speed_keys → lookupKey k hour = some v →
      lookupKey k (convertHourSpeeds hour) = some v) ∧
    (∀ d out, lookupKey "windSpeed" hour = some (Value.dict d) →
      lookupKey "sg" d = some 5 →
      transformHour hour zone = some out →
      lookupKey "windSpeed" out = some (Value.num ((5 : ℚ) * 1.94384))) := by
  refine ⟨?_, ?_, ?_⟩
  · intro k q hmem hv
    rw [lookupKey_convertHourSpeeds, hv]
    simp [convertValue, hmem, MS_TO_KNOTS]
  · intro k v hmem hv
    rw [lookupKey_convertHourSpeeds, hv]
    simp [convertValue, hmem]
  · intro d out hws hsg htrans
    have h2 : lookupKey "windSpeed" (convertHourSpeeds (flattenHour hour)) =
        some (Value.num (5 * MS_TO_KNOTS)) := by
      rw [lookupKey_convertHourSpeeds, lookupKey_flattenHour, hws]
      simp [flattenValue, hsg, convertValue, wind_speed_keys]
    unfold transformHour convertHourTime at htrans
    split at htrans
    · split at htrans
      · cases htrans
        rw [lookupKey_setKey_ne _ _
          (by decide : ("windSpeed" : String) ≠ "time")]
        exact h2
      · exact absurd htrans (by simp)
    · exact absurd htrans (by simp)

/-- Concrete check of C4 on a record with `windSpeed = {"sg": 5.0}`. -/
theorem c4_witness :
    transformHour c4hour asiaJerusalem = some c4out ∧
    lookupKey "windSpeed" c4out = some (Value.num ((5 : ℚ) * 1.94384)) := by
  have h : transformHour c4hour asiaJerusalem = some c4out := rfl
  exact ⟨h, (c4_knots_conversion c4hour asiaJerusalem).2.2 [("sg", 5)] c4out
    rfl rfl h⟩

/-- C3: `_process_hours` applies the per-record transform — flatten, then
knots conversion, then time localization, in that fixed order — to each
record, producing a sequence of the same length with records in the same
order as the input. -/
theorem c3_process_hours (hours : List HourRecord) (zone : Zone)
    (out : List HourRecord) (h : processHours hours zone = some out) :
    out.length = hours.length ∧
    (∀ i : Nat, (hours[i]?.bind fun hr => transformHour hr zone) = out[i]?) ∧
    (∀ hr, transformHour hr zone =
      convertHourTime (convertHourSpeeds (flattenHour hr)) zone) :=
  ⟨(processHours_spec hours zone out h).1,
   (processHours_spec hours zone out h).2, fun _ => rfl⟩

/-- Concrete check of C3 on a two-record input. -/
theorem c3_witness :
    processHours sampleHours asiaJerusalem = some sampleHoursOut ∧
    sampleHoursOut.length = sampleHours.length := by
  have h : processHours sampleHours asiaJerusalem = some sampleHoursOut := rfl
  exact ⟨h, (c3_process_hours sampleHours asiaJerusalem sampleHoursOut h).1⟩

/-- C5: `_convert_hour_time` replaces the `time` field of a record holding a
valid ISO-8601 UTC timestamp with the four-digit-year, two-digit month and
day, space, two-digit 24-hour hour:minute rendering of the target zone's
local wall clock (the instant shifted by the zone's offset), leaving every
other field unchanged. -/
theorem c5_time_localization (hour : HourRecord) (t : String) (epoch : Nat)
    (zone : Zone) (ht : lookupKey "time" hour = some (Value.str t))
    (hp : parseISO t = some epoch) :
    convertHourTime hour zone =
      some (setKey "time" (Value.str (formatYMDHM (epoch + zone epoch))) hour) ∧
    (∀ out, convertHourTime hour zone = some out →
      lookupKey "time" out =
        some (Value.str (formatYMDHM (epoch + zone epoch))) ∧
      ∀ k v, k ≠ "time" → lookupKey k hour = some v →
        lookupKey k out = some v) := by
  have hmain : convertHourTime hour zone =
      some (setKey "time" (Value.str (formatYMDHM (epoch + zone epoch))) hour) := by
    simp only [convertHourTime, ht, hp, localFormat]
  refine ⟨hmain, fun out hout => ?_⟩
  rw [hmain] at hout
  cases hout
  exact ⟨lookupKey_setKey_self _ _ _,
    fun k v hk hv => by rw [lookupKey_setKey_ne _ _ hk]; exact hv⟩

/-- Concrete check of C5: the spec's example timestamp localizes to
`2024-06-01 03:00` in `Asia/Jerusalem` (UTC+3 in June 2024). -/
theorem c5_witness :
    convertHourTime c5hour asiaJerusalem =
      some (setKey "time"
        (Value.str (formatYMDHM (1717200000 + asiaJerusalem 1717200000)))
        c5hour) ∧
    formatYMDHM (1717200000 + asiaJerusalem 1717200000) = "2024-06-01 03:00" :=
  ⟨(c5_time_localization c5hour "2024-06-01T00:00:00+00:00" 1717200000
      asiaJerusalem rfl rfl).1, rfl⟩

/-- C2: the status-code dispatch of `_fetch_weather_data` — a status in
{402, 403, 404, 405, 410, 422, 503} raises `StormGlassAPIError` with that
status and the fixed per-code table message; any other non-200 status raises
`StormGlassAPIError` with that status and the generic message, which embeds
the raw response body text; a 200 status never raises the API error. -/
theorem c2_fetch_status_dispatch (r : HttpResponse) :
    (r.status_code ∈ knownErrorStatuses →
      ∃ msg, lookupKey r.status_code STORMGLASS_ERROR_MESSAGES = some msg ∧
        fetchWeatherData r =
          Except.error (FetchError.api r.status_code msg)) ∧
    (r.status_code ∉ knownErrorStatuses → r.status_code ≠ 200 →
      fetchWeatherData r = Except.error (FetchError.api r.status_code
        (genericErrorMessage r.status_code r.text)) ∧
      ∃ pre post, genericErrorMessage r.status_code r.text =
        pre ++ r.text ++ post) ∧
    (r.status_code = 200 →
      ∀ c m, fetchWeatherData r ≠ Except.error (FetchError.api c m)) := by
  refine ⟨?_, ?_, ?_⟩
  · intro hmem
    obtain ⟨msg, hmsg⟩ := Option.isSome_iff_exists.mp
      ((mem_knownErrorStatuses_iff _).mp hmem)
    exact ⟨msg, hmsg, by simp [fetchWeatherData, hmsg]⟩
  · intro hmem h200
    have hnone : lookupKey r.status_code STORMGLASS_ERROR_MESSAGES = none := by
      have := (mem_knownErrorStatuses_iff r.status_code).not.mp hmem
      simpa [Option.not_isSome_iff_eq_none] using this
    refine ⟨by simp [fetchWeatherData, hnone, h200], ?_⟩
    exact ⟨"Unexpected API error (HTTP " ++ toString r.status_code ++
      ").\nResponse: ",
      "\nPlease check the API documentation or try again later.", rfl⟩
  · intro h200 c m hcontra
    have hnone : lookupKey (200 : Nat) STORMGLASS_ERROR_MESSAGES = none := rfl
    cases hj : r.jsonBody <;>
      simp [fetchWeatherData, h200, hnone, hj] at hcontra

/-- Concrete check of C2: a stubbed 403 yields the forbidden-message API
error, and a stubbed 500 yields the generic message embedding the body. -/
theorem c2_witness :
    fetchWeatherData ⟨403, "", none⟩ = Except.error (FetchError.api 403
      "Forbidden: Your API key was not provided or is malformed.\nPlease check that STORMGLASS_API_KEY in your .env file is correct.") ∧
    fetchWeatherData ⟨500, "oops", none⟩ = Except.error (FetchError.api 500
      (genericErrorMessage 500 "oops")) := by
  constructor
  · obtain ⟨msg, hmsg, hfetch⟩ :=
      (c2_fetch_status_dispatch ⟨403, "", none⟩).1 (by decide)
    have he : lookupKey (403 : Nat) STORMGLASS_ERROR_MESSAGES =
        some "Forbidden: Your API key was not provided or is malformed.\nPlease check that STORMGLASS_API_KEY in your .env file is correct." := rfl
    rw [he] at hmsg
    cases hmsg
    exact hfetch
  · exact ((c2_fetch_status_dispatch ⟨500, "oops", none⟩).2.1
      (by decide) (by decide)).1

/-- C6 (amended): on a 200 response `_fetch_weather_data` fails with a decode
error exactly when the body is not valid JSON; any successfully decoded body
is returned unchanged, with no check that it has `hours` or `meta` fields. -/
theorem c6_fetch_200_decode (r : HttpResponse) (h200 : r.status_code = 200) :
    (r.jsonBody = none →
      fetchWeatherData r = Except.error FetchError.jsonDecode) ∧
    (∀ j, r.jsonBody = some j → fetchWeatherData r = Except.ok j) := by
  have hnone : lookupKey (200 : Nat) STORMGLASS_ERROR_MESSAGES = none := rfl
  constructor
  · intro hj
    simp [fetchWeatherData, h200, hnone, hj]
  · intro j hj
    simp [fetchWeatherData, h200, hnone, hj]

/-- C6 counterexample: a 200 response whose body decodes to the empty JSON
object — valid JSON that lacks both `hours` and `meta` — is returned as-is,
not rejected with a decode error, refuting the claim's missing-field check. -/
theorem c6_counterexample :
    fetchWeatherData ⟨200, "\x7b\x7d", some (Json.obj [])⟩ =
      Except.ok (Json.obj []) ∧
    lookupKey "hours" ([] : List (String × Json)) = none ∧
    lookupKey "meta" ([] : List (String × Json)) = none :=
  ⟨rfl, rfl, rfl⟩

/-- Concrete check of the amended C6 on both decode outcomes. -/
theorem c6_witness :
    fetchWeatherData ⟨200, "not json", none⟩ =
      Except.error FetchError.jsonDecode ∧
    fetchWeatherData ⟨200, "[]", some (Json.arr [])⟩ =
      Except.ok (Json.arr []) :=
  ⟨(c6_fetch_200_decode ⟨200, "not json", none⟩ rfl).1 rfl,
   (c6_fetch_200_decode ⟨200, "[]", some (Json.arr [])⟩ rfl).2 _ rfl⟩

/-- C7 (code bug): every enriched meta carries the source's literal `units`
table; that table's `swellDirection` and `windDirection` strings contain the
source file's literal U+C9F8 character (a mojibake of the degree sign), so
they differ from the spec's strings, which use the degree sign U+00B0. -/
theorem c7_units_mojibake :
    (∀ (meta : List (String × MetaValue)) (now : Nat),
      lookupKey "units" (updateMeta meta now) =
        some (MetaValue.strDict unitsDescriptions)) ∧
    lookupKey "swellDirection" unitsDescriptions =
      some "Direction of swell waves. 0째 indicates swell coming from north" ∧
    "Direction of swell waves. 0째 indicates swell coming from north" ≠
      "Direction of swell waves. 0° indicates swell coming from north" ∧
    lookupKey "windDirection" unitsDescriptions =
      some "Direction of wind at 10m above ground. 0째 indicates wind coming from north" ∧
    "Direction of wind at 10m above ground. 0째 indicates wind coming from north" ≠
      "Direction of wind at 10m above ground. 0° indicates wind coming from north" :=
  ⟨fun meta now => lookupKey_setKey_self _ _ _, rfl, by decide, rfl, by decide⟩

/-- C9: `_update_meta` returns the input meta with every pre-existing key's
value unchanged plus exactly the two appended keys `report_generated_at` and
`units`; the input dict is not mutated (the dict literal builds a new one,
which in this pure embedding is visible as the input staying available
unchanged on the right side of the equation). -/
theorem c9_update_meta (meta : List (String × MetaValue)) (now : Nat)
    (h1 : lookupKey "report_generated_at" meta = none)
    (h2 : lookupKey "units" meta = none) :
    updateMeta meta now = meta ++
      [("report_generated_at", MetaValue.str (localFormat now asiaJerusalem)),
       ("units", MetaValue.strDict unitsDescriptions)] ∧
    (∀ k v, lookupKey k meta = some v →
      lookupKey k (updateMeta meta now) = some v) := by
  have hstep1 : setKey "report_generated_at"
      (MetaValue.str (localFormat now asiaJerusalem)) meta =
      meta ++ [("report_generated_at",
        MetaValue.str (localFormat now asiaJerusalem))] := by
    unfold setKey
    simp [hasKey, h1]
  have hstep2 : updateMeta meta now = meta ++
      [("report_generated_at", MetaValue.str (localFormat now asiaJerusalem)),
       ("units", MetaValue.strDict unitsDescriptions)] := by
    unfold updateMeta
    rw [hstep1]
    unfold setKey
    have hu : lookupKey "units" (meta ++ [("report_generated_at",
        MetaValue.str (localFormat now asiaJerusalem))]) = none := by
      rw [lookupKey_append, h2]
      rfl
    simp [hasKey, hu]
  refine ⟨hstep2, fun k v hv => ?_⟩
  rw [hstep2, lookupKey_append, hv]
  rfl

/-- Concrete check of C9 on a provider-shaped meta dict. -/
theorem c9_witness :
    updateMeta c9meta 1717200000 = c9meta ++
      [("report_generated_at", MetaValue.str "2024-06-01 03:00"),
       ("units", MetaValue.strDict unitsDescriptions)] := by
  have h := (c9_update_meta c9meta 1717200000 rfl rfl).1
  rw [h]
  rfl

/-- C8 (amended): the `start` and `end` query parameters are the instants'
UTC Unix timestamps in seconds as exact decimal values (Python floats from
`.timestamp()`, never cast to int); such a value is an integer precisely when
the instant has no sub-second part. -/
theorem c8_request_timestamps (start end_ : ArrowTime) (lat lng : ℚ) :
    lookupKey "start" (requestParams start end_ lat lng) =
      some (ParamValue.num ((start.epochMicros : ℚ) / 1000000)) ∧
    lookupKey "end" (requestParams start end_ lat lng) =
      some (ParamValue.num ((end_.epochMicros : ℚ) / 1000000)) ∧
    ((∃ z : ℤ, (end_.toUTC.timestamp) = (z : ℚ)) ↔
      (1000000 : ℤ) ∣ end_.epochMicros) :=
  ⟨rfl, rfl, div_million_intValued_iff end_.epochMicros⟩

/-- C8 counterexample: for an end instant of the exact shape the program
always produces for `end` (arrow's `ceil('day')`, second fraction .999999 —
here 2024-05-31T23:59:59.999999Z), the `end` query parameter carries a value
that is not an integer, refuting the claim that the parameters are integer
values. -/
theorem c8_counterexample :
    lookupKey "end" (requestParams (ArrowTime.mk 1717113600000000)
        (ArrowTime.mk 1717199999999999) 32.486722 34.888722) =
      some (ParamValue.num (((1717199999999999 : ℤ) : ℚ) / 1000000)) ∧
    ¬ ∃ z : ℤ, (((1717199999999999 : ℤ) : ℚ) / 1000000) = (z : ℚ) := by
  refine ⟨rfl, fun hex => ?_⟩
  obtain ⟨c, hc⟩ := (div_million_intValued_iff 1717199999999999).mp hex
  omega

/-- Concrete check of the amended C8: a whole-second instant's parameter value
is an integer. -/
theorem c8_witness :
    lookupKey "start" (requestParams (ArrowTime.mk 1717113600000000)
        (ArrowTime.mk 1717199999999999) 32.486722 34.888722) =
      some (ParamValue.num (((1717113600000000 : ℤ) : ℚ) / 1000000)) ∧
    ∃ z : ℤ, (ArrowTime.mk 1717113600000000).toUTC.timestamp = (z : ℚ) := by
  have h := c8_request_timestamps (ArrowTime.mk 1717113600000000)
    (ArrowTime.mk 1717113600000000) 32.486722 34.888722
  exact ⟨(c8_request_timestamps (ArrowTime.mk 1717113600000000)
      (ArrowTime.mk 1717199999999999) 32.486722 34.888722).1,
    (h.2.2).mpr ⟨1717113600, by norm_num⟩⟩

end StormGlass
